import Mathlib

/-
Verification of the fusion-backcasting LCOE core (backend/services/lcoe_calculator.py,
backend/services/constraint_solver.py, backend/models/subsystem.py,
backend/models/fuel_type.py).

Modelling conventions:
* Python floats are modelled as exact rationals (ℚ).  `float("inf")` sentinels are
  modelled as `none : Option ℚ`, finite values as `some x`.
* `round(x, d)` is modelled as exact decimal rounding with ties to even
  (`roundTo`), matching Python's round-half-to-even convention on the real value.
* Presentation-only fields of the Python models (name, description, trl,
  idiot_index, explanation strings, the diagnostic `constraints` dict,
  `construction_time`) do not enter any computation under verification and are
  omitted from the records.
* Pydantic field validation (`ge=`/`le=`/`gt=` bounds) is modelled by the
  decidable predicates `FinancialParams.Valid` and `Subsystem.Valid`.
* Python dicts keyed by account code are modelled as insertion-ordered
  association lists; `dictInsert` reproduces dict assignment (overwrite in
  place, else append).
-/

/-- Round a rational to the nearest integer, ties to even (Python's rounding mode). -/
def roundHalfEven (x : ℚ) : ℤ :=
  if x - ⌊x⌋ < 1/2 then ⌊x⌋
  else if 1/2 < x - ⌊x⌋ then ⌊x⌋ + 1
  else if ⌊x⌋ % 2 = 0 then ⌊x⌋ else ⌊x⌋ + 1

/-- Model of Python's `round(x, d)`: round to `d` decimal places, ties to even. -/
def roundTo (d : ℕ) (x : ℚ) : ℚ :=
  (roundHalfEven (x * 10 ^ d) : ℚ) / 10 ^ d

theorem roundHalfEven_abs_le (x : ℚ) : |(roundHalfEven x : ℚ) - x| ≤ 1/2 := by
  have hfl : (⌊x⌋ : ℚ) ≤ x := Int.floor_le x
  have hfu : x < ⌊x⌋ + 1 := Int.lt_floor_add_one x
  unfold roundHalfEven
  split_ifs with h1 h2 h3 <;>
    · simp only [abs_le]
      push_cast at *
      constructor <;> linarith

theorem roundTo_abs_le (d : ℕ) (x : ℚ) :
    |roundTo d x - x| ≤ 1 / (2 * 10 ^ d) := by
  have h10 : (0:ℚ) < 10 ^ d := by positivity
  have h := roundHalfEven_abs_le (x * 10 ^ d)
  have hrw : roundTo d x - x = ((roundHalfEven (x * 10 ^ d) : ℚ) - x * 10 ^ d) / 10 ^ d := by
    unfold roundTo
    field_simp
    ring
  rw [hrw, abs_div, abs_of_pos h10, div_le_div_iff₀ h10 (by positivity)]
  calc |(roundHalfEven (x * 10 ^ d) : ℚ) - x * 10 ^ d| * (2 * 10 ^ d)
      ≤ (1/2) * (2 * 10 ^ d) := by
        exact mul_le_mul_of_nonneg_right h (by positivity)
    _ = 1 * 10 ^ d := by ring

theorem roundHalfEven_nonneg {x : ℚ} (hx : 0 ≤ x) : 0 ≤ roundHalfEven x := by
  have hfl : (0:ℤ) ≤ ⌊x⌋ := Int.floor_nonneg.mpr hx
  unfold roundHalfEven
  split_ifs <;> omega

theorem roundTo_nonneg (d : ℕ) {x : ℚ} (hx : 0 ≤ x) : 0 ≤ roundTo d x := by
  have h10 : (0:ℚ) < 10 ^ d := by positivity
  have h := roundHalfEven_nonneg (x := x * 10 ^ d) (by positivity)
  unfold roundTo
  positivity

/-- Python dict assignment `d[k] = v` on an insertion-ordered association list:
overwrite the value in place when the key is present, otherwise append. -/
def dictInsert (d : List (String × ℚ)) (k : String) (v : ℚ) : List (String × ℚ) :=
  if d.any (fun p => p.1 = k) then
    d.map (fun p => if p.1 = k then (k, v) else p)
  else
    d ++ [(k, v)]

/-- Sum of the values of an association list (Python `sum(d.values())`). -/
def valuesSum (d : List (String × ℚ)) : ℚ := (d.map Prod.snd).sum

/-- Subsystem cost record (backend/models/subsystem.py, class Subsystem).
Costs are the pydantic-validated fields that enter the LCOE math. -/
structure Subsystem where
  account : String
  absolute_capital_cost : ℚ
  absolute_fixed_om : ℚ
  variable_om : ℚ
  required : Bool
  disabled : Bool
deriving DecidableEq

/-- Pydantic validation of Subsystem: the three cost fields carry `ge=0`. -/
def Subsystem.Valid (s : Subsystem) : Prop :=
  0 ≤ s.absolute_capital_cost ∧ 0 ≤ s.absolute_fixed_om ∧ 0 ≤ s.variable_om

instance (s : Subsystem) : Decidable s.Valid := by
  unfold Subsystem.Valid
  infer_instance

/-- Subsystem.capital_cost_per_kw: guarded division, returns 0 at non-positive capacity. -/
def Subsystem.capital_cost_per_kw (s : Subsystem) (capacity_mw : ℚ) : ℚ :=
  if capacity_mw ≤ 0 then 0
  else s.absolute_capital_cost * 1000000 / (capacity_mw * 1000)

/-- Subsystem.fixed_om_per_kw: guarded division, returns 0 at non-positive capacity. -/
def Subsystem.fixed_om_per_kw (s : Subsystem) (capacity_mw : ℚ) : ℚ :=
  if capacity_mw ≤ 0 then 0
  else s.absolute_fixed_om * 1000000 / (capacity_mw * 1000)

/-- Erase the `required` flag (used to state that `required` never influences results). -/
def stripReq (s : Subsystem) : Subsystem := { s with required := false }

/-- Financial scenario (backend/models/subsystem.py, class FinancialParams).
construction_time is unused by the core math and omitted. -/
structure FinancialParams where
  wacc : ℚ
  lifetime : ℕ
  capacity_factor : ℚ
  capacity_mw : ℚ
  q_eng : ℚ
deriving DecidableEq

/-- Pydantic range validation of FinancialParams. -/
def FinancialParams.Valid (fp : FinancialParams) : Prop :=
  1/100 ≤ fp.wacc ∧ fp.wacc ≤ 1/4 ∧
  10 ≤ fp.lifetime ∧ fp.lifetime ≤ 60 ∧
  1/2 ≤ fp.capacity_factor ∧ fp.capacity_factor ≤ 1 ∧
  100 ≤ fp.capacity_mw ∧ fp.capacity_mw ≤ 5000 ∧
  1 < fp.q_eng ∧ fp.q_eng ≤ 50

instance (fp : FinancialParams) : Decidable fp.Valid := by
  unfold FinancialParams.Valid
  infer_instance

/-- Fuel types (backend/models/fuel_type.py, enum FuelType). -/
inductive FuelType where
  | DT
  | DHE3
  | PB11
deriving DecidableEq

/-- Confinement approaches (backend/models/subsystem.py, enum ConfinementType). -/
inductive ConfinementType where
  | MCF
  | ICF
deriving DecidableEq

/-- Fuel constraint record (backend/models/fuel_type.py, class FuelConstraints). -/
structure FuelConstraints where
  required_subsystems : List String
  disabled_subsystems : List String
  cf_modifier : ℚ
  regulatory_modifier : ℚ
deriving DecidableEq

/-- The FUEL_CONSTRAINTS table from backend/models/fuel_type.py. -/
def get_fuel_constraints : FuelType → FuelConstraints
  | FuelType.DT => ⟨["22.5", "23"], ["22.1.9", "22.6"], 95/100, 120/100⟩
  | FuelType.DHE3 => ⟨["22.6", "23"], ["22.5"], 98/100, 110/100⟩
  | FuelType.PB11 => ⟨["22.1.9"], ["22.5", "22.6", "23", "22.1.2"], 1, 1⟩

/-- Q_SCALING_FACTORS table from backend/services/lcoe_calculator.py:
1 means the account scales with plant size, 0 means balance-of-plant. -/
def Q_SCALING_FACTORS : List (String × ℚ) :=
  [("22.1.1", 1), ("22.1.2", 1), ("22.1.3", 1), ("22.1.5", 1), ("22.1.6", 1),
   ("22.1.7", 1), ("22.1.8", 1), ("22.1.8b", 1), ("22.1.9", 1), ("22.5", 1),
   ("22.6", 1), ("23", 1), ("24-26", 0)]

/-- Python `Q_SCALING_FACTORS.get(account, 0.0)`. -/
def qScalingFlag (account : String) : ℚ :=
  ((Q_SCALING_FACTORS.lookup account).getD 0)

/-- q_eng_multiplier from backend/services/lcoe_calculator.py.
`none` models the `float("inf")` returned when q_eng ≤ 1. -/
def q_eng_multiplier (account : String) (q_eng : ℚ) : Option ℚ :=
  if q_eng ≤ 1 then none
  else if qScalingFlag account = 0 then some 1
  else some (q_eng / (q_eng - 1))

/-- Finite value of the multiplier. For q_eng > 1 (guaranteed by pydantic's
`gt=1` bound on FinancialParams.q_eng) the multiplier is always finite, so the
default branch is unreachable in every theorem below. -/
def qMultVal (account : String) (q_eng : ℚ) : ℚ :=
  (q_eng_multiplier account q_eng).getD 0

/-- calculate_crf from backend/services/lcoe_calculator.py. -/
def calculate_crf (wacc : ℚ) (lifetime : ℕ) : ℚ :=
  if wacc ≤ 0 then 1 / (lifetime : ℚ)
  else wacc * (1 + wacc) ^ lifetime / ((1 + wacc) ^ lifetime - 1)

/-- LCOE breakdown value object (backend/models/subsystem.py, class LCOEBreakdown). -/
structure LCOEBreakdown where
  capital_contribution : ℚ
  fixed_om_contribution : ℚ
  variable_om_contribution : ℚ
  fuel_contribution : ℚ
  total_lcoe : ℚ
  subsystem_capital : List (String × ℚ)
  subsystem_om : List (String × ℚ)
deriving DecidableEq

/-- The non-disabled subsystems (`for sub in subsystems: if sub.disabled: continue`,
and the `if not s.disabled` generator filters of constraint_solver.py). -/
def activeSubs (subs : List Subsystem) : List Subsystem :=
  subs.filter fun s => !s.disabled

/-- Q-scaled capital cost in $/kW of one subsystem
(`sub.capital_cost_per_kw(capacity_mw) * q_mult`). -/
def capitalPerKw (fp : FinancialParams) (s : Subsystem) : ℚ :=
  s.capital_cost_per_kw fp.capacity_mw * qMultVal s.account fp.q_eng

/-- Q-scaled fixed O&M in $/kW-yr of one subsystem
(`sub.fixed_om_per_kw(capacity_mw) * q_mult`). -/
def fixedOmPerKw (fp : FinancialParams) (s : Subsystem) : ℚ :=
  s.fixed_om_per_kw fp.capacity_mw * qMultVal s.account fp.q_eng

/-- Aggregate Q-scaled capex over active subsystems, before the regulatory markup. -/
def total_capex_kw (subs : List Subsystem) (fp : FinancialParams) : ℚ :=
  ((activeSubs subs).map (capitalPerKw fp)).sum

/-- Aggregate Q-scaled fixed O&M over active subsystems. -/
def total_fixed_om_kw (subs : List Subsystem) (fp : FinancialParams) : ℚ :=
  ((activeSubs subs).map (fixedOmPerKw fp)).sum

/-- Aggregate variable O&M over active subsystems. -/
def total_variable_om (subs : List Subsystem) : ℚ :=
  ((activeSubs subs).map Subsystem.variable_om).sum

/-- effective_cf = capacity_factor * fuel.cf_modifier. -/
def effectiveCf (fp : FinancialParams) (ft : FuelType) : ℚ :=
  fp.capacity_factor * (get_fuel_constraints ft).cf_modifier

/-- energy_per_kw = effective_cf * 8760 / 1000 (MWh per kW per year). -/
def energy_per_kw (fp : FinancialParams) (ft : FuelType) : ℚ :=
  effectiveCf fp ft * 8760 / 1000

/-- Aggregate capex after the regulatory markup
(`total_capex *= fuel_constraints.regulatory_modifier`). -/
def total_capex_reg (subs : List Subsystem) (fp : FinancialParams) (ft : FuelType) : ℚ :=
  total_capex_kw subs fp * (get_fuel_constraints ft).regulatory_modifier

/-- Per-subsystem capital contribution recorded in the attribution dict
(`(crf * capital_per_kw) / energy_per_kw`, computed before the regulatory markup). -/
def sub_capital_contrib (fp : FinancialParams) (ft : FuelType) (s : Subsystem) : ℚ :=
  calculate_crf fp.wacc fp.lifetime * capitalPerKw fp s / energy_per_kw fp ft

/-- Per-subsystem O&M contribution recorded in the attribution dict
(`fixed_om_per_kw / energy_per_kw + sub.variable_om`). -/
def sub_om_contrib (fp : FinancialParams) (ft : FuelType) (s : Subsystem) : ℚ :=
  fixedOmPerKw fp s / energy_per_kw fp ft + s.variable_om

/-- The `subsystem_capital` dict built by the aggregation loop. -/
def subsystem_capital_map (subs : List Subsystem) (fp : FinancialParams) (ft : FuelType) :
    List (String × ℚ) :=
  (activeSubs subs).foldl (fun d s => dictInsert d s.account (sub_capital_contrib fp ft s)) []

/-- The `subsystem_om` dict built by the aggregation loop. -/
def subsystem_om_map (subs : List Subsystem) (fp : FinancialParams) (ft : FuelType) :
    List (String × ℚ) :=
  (activeSubs subs).foldl (fun d s => dictInsert d s.account (sub_om_contrib fp ft s)) []

/-- calculate_lcoe before the final presentation rounding.  The single Python
loop accumulates the running totals and the two attribution dicts in one pass;
it is modelled as independent passes over the same filtered list, which agree
because the accumulators are independent.  confinement_type is accepted and
ignored, exactly as in the source body. -/
def calculate_lcoe_core (subs : List Subsystem) (fp : FinancialParams)
    (ft : FuelType) (_ct : ConfinementType) : LCOEBreakdown :=
  let crf := calculate_crf fp.wacc fp.lifetime
  let energy := energy_per_kw fp ft
  let capital := crf * total_capex_reg subs fp ft / energy
  let fixed := total_fixed_om_kw subs fp / energy
  let varc := total_variable_om subs
  { capital_contribution := capital
    fixed_om_contribution := fixed
    variable_om_contribution := varc
    fuel_contribution := 0
    total_lcoe := capital + fixed + varc + 0
    subsystem_capital := subsystem_capital_map subs fp ft
    subsystem_om := subsystem_om_map subs fp ft }

/-- Round every value of an attribution dict to 2 decimals. -/
def roundMap (d : List (String × ℚ)) : List (String × ℚ) :=
  d.map fun p => (p.1, roundTo 2 p.2)

/-- calculate_lcoe from backend/services/lcoe_calculator.py, including the
final `round(..., 2)` presentation rounding of every returned number. -/
def calculate_lcoe (subs : List Subsystem) (fp : FinancialParams)
    (ft : FuelType) (ct : ConfinementType) : LCOEBreakdown :=
  let B := calculate_lcoe_core subs fp ft ct
  { capital_contribution := roundTo 2 B.capital_contribution
    fixed_om_contribution := roundTo 2 B.fixed_om_contribution
    variable_om_contribution := roundTo 2 B.variable_om_contribution
    fuel_contribution := roundTo 2 B.fuel_contribution
    total_lcoe := roundTo 2 B.total_lcoe
    subsystem_capital := roundMap B.subsystem_capital
    subsystem_om := roundMap B.subsystem_om }

/-- Solver result (backend/services/constraint_solver.py, class SolverResult).
`required_value = none` models the `float("inf")` sentinel. -/
structure SolverResult where
  parameter : String
  required_value : Option ℚ
  feasible : Bool
deriving DecidableEq

/-- Current absolute capex with Q scaling
(`sum(s.absolute_capital_cost * q_eng_multiplier(...))` over active subsystems). -/
def current_capex_abs (subs : List Subsystem) (fp : FinancialParams) : ℚ :=
  ((activeSubs subs).map (fun s => s.absolute_capital_cost * qMultVal s.account fp.q_eng)).sum

/-- Current absolute fixed O&M with Q scaling. -/
def current_fixed_om_abs (subs : List Subsystem) (fp : FinancialParams) : ℚ :=
  ((activeSubs subs).map (fun s => s.absolute_fixed_om * qMultVal s.account fp.q_eng)).sum

/-- solve_for_capex from backend/services/constraint_solver.py. -/
def solve_for_capex (target_lcoe : ℚ) (subs : List Subsystem)
    (fp : FinancialParams) (ft : FuelType) : SolverResult :=
  let crf := calculate_crf fp.wacc fp.lifetime
  let energy := energy_per_kw fp ft
  let max_capex_with_reg :=
    ((target_lcoe - total_variable_om subs) * energy - total_fixed_om_kw subs fp) / crf
  let max_capex_per_kw := max_capex_with_reg / (get_fuel_constraints ft).regulatory_modifier
  let max_capex_abs := max_capex_per_kw * fp.capacity_mw * 1000 / 1000000
  { parameter := "capex"
    required_value := some (roundTo 0 max_capex_abs)
    feasible := decide (0 < max_capex_abs ∧ current_capex_abs subs fp * (3/10) ≤ max_capex_abs) }

/-- solve_for_capacity_factor from backend/services/constraint_solver.py. -/
def solve_for_capacity_factor (target_lcoe : ℚ) (subs : List Subsystem)
    (fp : FinancialParams) (ft : FuelType) : SolverResult :=
  let crf := calculate_crf fp.wacc fp.lifetime
  let denom := (target_lcoe - total_variable_om subs) * 8760 / 1000
  if denom ≤ 0 then
    { parameter := "capacity_factor", required_value := none, feasible := false }
  else
    let required_cf_base := (crf * total_capex_reg subs fp ft + total_fixed_om_kw subs fp) / denom
    let required_cf := required_cf_base / (get_fuel_constraints ft).cf_modifier
    { parameter := "capacity_factor"
      required_value := some (roundTo 3 required_cf)
      feasible := decide (1/2 ≤ required_cf ∧ required_cf ≤ 98/100) }

/-- The closure `lcoe_at_wacc` inside solve_for_wacc. -/
def lcoe_at_wacc (subs : List Subsystem) (fp : FinancialParams) (ft : FuelType)
    (wacc : ℚ) : ℚ :=
  (calculate_crf wacc fp.lifetime * total_capex_reg subs fp ft + total_fixed_om_kw subs fp) /
    energy_per_kw fp ft + total_variable_om subs

/-- The 50-iteration bisection loop of solve_for_wacc, by remaining iterations.
Returns the last computed midpoint together with a flag that is true exactly
when the loop exited through its tolerance test `|lcoe(mid) - target| < 0.01`. -/
def wacc_bisect (f : ℚ → ℚ) (target : ℚ) : ℕ → ℚ → ℚ → ℚ × Bool
  | 0, low, high => ((low + high) / 2, false)
  | n + 1, low, high =>
    if |f ((low + high) / 2) - target| < 1/100 then ((low + high) / 2, true)
    else if n = 0 then ((low + high) / 2, false)
    else if f ((low + high) / 2) > target then wacc_bisect f target n low ((low + high) / 2)
    else wacc_bisect f target n ((low + high) / 2) high

/-- solve_for_wacc from backend/services/constraint_solver.py. -/
def solve_for_wacc (target_lcoe : ℚ) (subs : List Subsystem)
    (fp : FinancialParams) (ft : FuelType) : SolverResult :=
  let f := lcoe_at_wacc subs fp ft
  if f (1/100) > target_lcoe then
    { parameter := "wacc", required_value := some 0, feasible := false }
  else if f (1/4) < target_lcoe then
    { parameter := "wacc", required_value := some (1/4), feasible := true }
  else
    let mid := (wacc_bisect f target_lcoe 50 (1/100) (1/4)).1
    { parameter := "wacc"
      required_value := some (roundTo 3 mid)
      feasible := decide (3/100 ≤ mid) }

/-- solve_for_fixed_om from backend/services/constraint_solver.py. -/
def solve_for_fixed_om (target_lcoe : ℚ) (subs : List Subsystem)
    (fp : FinancialParams) (ft : FuelType) : SolverResult :=
  let crf := calculate_crf fp.wacc fp.lifetime
  let energy := energy_per_kw fp ft
  let max_fixed_om_per_kw :=
    (target_lcoe - total_variable_om subs) * energy - crf * total_capex_reg subs fp ft
  let max_fixed_om_abs := max_fixed_om_per_kw * fp.capacity_mw * 1000 / 1000000
  { parameter := "fixed_om"
    required_value := some (roundTo 0 max_fixed_om_abs)
    feasible :=
      decide (0 < max_fixed_om_abs ∧ current_fixed_om_abs subs fp * (3/10) ≤ max_fixed_om_abs) }

/-- The closure `lcoe_at_lifetime` inside solve_for_lifetime. -/
def lcoe_at_lifetime (subs : List Subsystem) (fp : FinancialParams) (ft : FuelType)
    (lifetime : ℕ) : ℚ :=
  (calculate_crf fp.wacc lifetime * total_capex_reg subs fp ft + total_fixed_om_kw subs fp) /
    energy_per_kw fp ft + total_variable_om subs

/-- The 20-iteration integer bisection loop of solve_for_lifetime (floor-division
midpoint; bound updates reversed because LCOE is decreasing in lifetime). -/
def lifetime_bisect (f : ℕ → ℚ) (target : ℚ) : ℕ → ℕ → ℕ → ℕ
  | 0, low, high => (low + high) / 2
  | n + 1, low, high =>
    let mid := (low + high) / 2
    if |f mid - target| < 1/10 then mid
    else if n = 0 then mid
    else if f mid > target then lifetime_bisect f target n mid high
    else lifetime_bisect f target n low mid

/-- solve_for_lifetime from backend/services/constraint_solver.py. -/
def solve_for_lifetime (target_lcoe : ℚ) (subs : List Subsystem)
    (fp : FinancialParams) (ft : FuelType) : SolverResult :=
  let f := lcoe_at_lifetime subs fp ft
  if f 60 > target_lcoe then
    { parameter := "lifetime", required_value := some 60, feasible := false }
  else if f 10 < target_lcoe then
    { parameter := "lifetime", required_value := some 10, feasible := true }
  else
    let mid := lifetime_bisect f target_lcoe 20 10 60
    { parameter := "lifetime"
      required_value := some (mid : ℚ)
      feasible := decide (mid ≤ 50) }

/-- Capex of the Q-scaling bucket in solve_for_q_eng (no Q multiplier applied;
the `if scaling_flag > 0` branch of the splitting loop). -/
def qeng_capex_q (subs : List Subsystem) (fp : FinancialParams) : ℚ :=
  ((activeSubs subs).map
    (fun s => if 0 < qScalingFlag s.account then s.capital_cost_per_kw fp.capacity_mw else 0)).sum

/-- Capex of the non-Q-scaling bucket in solve_for_q_eng. -/
def qeng_capex_nq (subs : List Subsystem) (fp : FinancialParams) : ℚ :=
  ((activeSubs subs).map
    (fun s => if 0 < qScalingFlag s.account then 0 else s.capital_cost_per_kw fp.capacity_mw)).sum

/-- Fixed O&M of the Q-scaling bucket in solve_for_q_eng. -/
def qeng_om_q (subs : List Subsystem) (fp : FinancialParams) : ℚ :=
  ((activeSubs subs).map
    (fun s => if 0 < qScalingFlag s.account then s.fixed_om_per_kw fp.capacity_mw else 0)).sum

/-- Fixed O&M of the non-Q-scaling bucket in solve_for_q_eng. -/
def qeng_om_nq (subs : List Subsystem) (fp : FinancialParams) : ℚ :=
  ((activeSubs subs).map
    (fun s => if 0 < qScalingFlag s.account then 0 else s.fixed_om_per_kw fp.capacity_mw)).sum

/-- Annualized cost rate of the Q-scaling bucket:
`c_q = crf * capex_q * regulatory_modifier + om_q`. -/
def qeng_cq (subs : List Subsystem) (fp : FinancialParams) (ft : FuelType) : ℚ :=
  calculate_crf fp.wacc fp.lifetime * qeng_capex_q subs fp *
    (get_fuel_constraints ft).regulatory_modifier + qeng_om_q subs fp

/-- Annualized cost rate of the non-Q-scaling bucket:
`c_nq = crf * capex_no_q * regulatory_modifier + om_no_q`. -/
def qeng_cnq (subs : List Subsystem) (fp : FinancialParams) (ft : FuelType) : ℚ :=
  calculate_crf fp.wacc fp.lifetime * qeng_capex_nq subs fp *
    (get_fuel_constraints ft).regulatory_modifier + qeng_om_nq subs fp

/-- LCOE headroom `a = (target_lcoe - total_variable_om) * energy_per_kw`. -/
def qeng_a (target_lcoe : ℚ) (subs : List Subsystem) (fp : FinancialParams)
    (ft : FuelType) : ℚ :=
  (target_lcoe - total_variable_om subs) * energy_per_kw fp ft

/-- The ratio `r = (a - c_nq) / c_q` of solve_for_q_eng. -/
def qeng_r (target_lcoe : ℚ) (subs : List Subsystem) (fp : FinancialParams)
    (ft : FuelType) : ℚ :=
  (qeng_a target_lcoe subs fp ft - qeng_cnq subs fp ft) / qeng_cq subs fp ft

/-- solve_for_q_eng from backend/services/constraint_solver.py. -/
def solve_for_q_eng (target_lcoe : ℚ) (subs : List Subsystem)
    (fp : FinancialParams) (ft : FuelType) : SolverResult :=
  if qeng_a target_lcoe subs fp ft ≤ qeng_cnq subs fp ft then
    { parameter := "q_eng", required_value := none, feasible := false }
  else if qeng_cq subs fp ft ≤ 0 then
    { parameter := "q_eng", required_value := some (3/2), feasible := true }
  else if qeng_r target_lcoe subs fp ft ≤ 1 then
    { parameter := "q_eng", required_value := none, feasible := false }
  else
    let q := qeng_r target_lcoe subs fp ft / (qeng_r target_lcoe subs fp ft - 1)
    { parameter := "q_eng"
      required_value := some (roundTo 1 q)
      feasible := decide (3/2 ≤ q ∧ q ≤ 50) }

/-- Present value of an n-year annuity at rate w: the sum of the discount
factors (1+w)^(-k) for k = 1..n.  CRF is its reciprocal. -/
def annuity (w : ℚ) (n : ℕ) : ℚ :=
  ∑ k ∈ Finset.range n, (1 / (1 + w)) ^ (k + 1)

theorem annuity_pos {w : ℚ} (hw : 0 < w) {n : ℕ} (hn : n ≠ 0) : 0 < annuity w n := by
  have h1w : (0:ℚ) < 1 + w := by linarith
  apply Finset.sum_pos
  · intro k _
    positivity
  · exact Finset.nonempty_range_iff.mpr hn

theorem annuity_strict_anti {w₁ w₂ : ℚ} (h1 : 0 < w₁) (h12 : w₁ < w₂) {n : ℕ}
    (hn : n ≠ 0) : annuity w₂ n < annuity w₁ n := by
  have h1w₁ : (0:ℚ) < 1 + w₁ := by linarith
  have h1w₂ : (0:ℚ) < 1 + w₂ := by linarith
  apply Finset.sum_lt_sum_of_nonempty (Finset.nonempty_range_iff.mpr hn)
  intro k _
  have hbase : 1 / (1 + w₂) < 1 / (1 + w₁) := by
    rw [div_lt_div_iff₀ h1w₂ h1w₁]
    linarith
  exact pow_lt_pow_left₀ hbase (by positivity) (Nat.succ_ne_zero k)

theorem annuity_strict_mono_n {w : ℚ} (hw : 0 < w) {n₁ n₂ : ℕ} (h : n₁ < n₂) :
    annuity w n₁ < annuity w n₂ := by
  have h1w : (0:ℚ) < 1 + w := by linarith
  refine Finset.sum_lt_sum_of_subset (Finset.range_subset.mpr h.le)
    (i := n₁) ?_ ?_ ?_ ?_
  · simpa using h
  · simp
  · positivity
  · intro j _ _
    positivity

theorem calculate_crf_eq_inv_annuity {w : ℚ} (hw : 0 < w) {n : ℕ} (hn : n ≠ 0) :
    calculate_crf w n = 1 / annuity w n := by
  have h1w : (0:ℚ) < 1 + w := by linarith
  have h1w' : (1:ℚ) + w ≠ 0 := ne_of_gt h1w
  have hx1 : 1 / (1 + w) ≠ 1 := by
    have hlt : (1:ℚ) / (1 + w) < 1 := by
      rw [div_lt_one h1w]
      linarith
    exact ne_of_lt hlt
  have hxm1 : 1 / (1 + w) - 1 ≠ 0 := sub_ne_zero.mpr hx1
  have hpow : (1:ℚ) < (1 + w) ^ n := one_lt_pow₀ (by linarith) hn
  have hpow0 : ((1:ℚ) + w) ^ n ≠ 0 := by positivity
  have hden : ((1:ℚ) + w) ^ n - 1 ≠ 0 := by linarith
  have hw0 : w ≠ 0 := ne_of_gt hw
  have hsum : annuity w n = (1 / (1 + w)) * (((1 / (1 + w)) ^ n - 1) / (1 / (1 + w) - 1)) := by
    unfold annuity
    rw [← geom_sum_eq hx1 n, Finset.mul_sum]
    apply Finset.sum_congr rfl
    intro k _
    rw [pow_succ]
    ring
  have hann : annuity w n = ((1 + w) ^ n - 1) / (w * (1 + w) ^ n) := by
    rw [hsum, one_div_pow]
    field_simp
    ring
  unfold calculate_crf
  rw [if_neg (not_le.mpr hw), hann, one_div_div]

theorem calculate_crf_pos {w : ℚ} (hw : 0 < w) {n : ℕ} (hn : n ≠ 0) :
    0 < calculate_crf w n := by
  rw [calculate_crf_eq_inv_annuity hw hn]
  have := annuity_pos hw hn
  positivity

theorem calculate_crf_strict_mono {w₁ w₂ : ℚ} (h1 : 0 < w₁) (h12 : w₁ < w₂) {n : ℕ}
    (hn : n ≠ 0) : calculate_crf w₁ n < calculate_crf w₂ n := by
  have h2 : 0 < w₂ := lt_trans h1 h12
  rw [calculate_crf_eq_inv_annuity h1 hn, calculate_crf_eq_inv_annuity h2 hn]
  have ha2 : 0 < annuity w₂ n := annuity_pos h2 hn
  exact one_div_lt_one_div_of_lt ha2 (annuity_strict_anti h1 h12 hn)

theorem calculate_crf_strict_anti_n {w : ℚ} (hw : 0 < w) {n₁ n₂ : ℕ} (hn₁ : n₁ ≠ 0)
    (h : n₁ < n₂) : calculate_crf w n₂ < calculate_crf w n₁ := by
  have hn₂ : n₂ ≠ 0 := by omega
  rw [calculate_crf_eq_inv_annuity hw hn₁, calculate_crf_eq_inv_annuity hw hn₂]
  have ha1 : 0 < annuity w n₁ := annuity_pos hw hn₁
  exact one_div_lt_one_div_of_lt ha1 (annuity_strict_mono_n hw h)

/-- C5: calculate_crf satisfies CRF(0, n) = 1/n exactly, and on the declared
parameter ranges (0 < r ≤ 0.25, 10 ≤ n ≤ 60) it is positive, strictly
increasing in the discount rate and strictly decreasing in the lifetime. -/
theorem crf_properties_C5 :
    (∀ n : ℕ, calculate_crf 0 n = 1 / (n : ℚ)) ∧
    (∀ (w : ℚ) (n : ℕ), 0 < w → w ≤ 1/4 → 10 ≤ n → n ≤ 60 →
      0 < calculate_crf w n) ∧
    (∀ (w₁ w₂ : ℚ) (n : ℕ), 0 < w₁ → w₁ < w₂ → w₂ ≤ 1/4 → 10 ≤ n → n ≤ 60 →
      calculate_crf w₁ n < calculate_crf w₂ n) ∧
    (∀ (w : ℚ) (n₁ n₂ : ℕ), 0 < w → w ≤ 1/4 → 10 ≤ n₁ → n₁ < n₂ → n₂ ≤ 60 →
      calculate_crf w n₂ < calculate_crf w n₁) := by
  refine ⟨?_, ?_, ?_, ?_⟩
  · intro n
    unfold calculate_crf
    rw [if_pos le_rfl]
  · intro w n hw _ hn _
    exact calculate_crf_pos hw (by omega)
  · intro w₁ w₂ n h1 h12 _ hn _
    exact calculate_crf_strict_mono h1 h12 (by omega)
  · intro w n₁ n₂ hw _ hn₁ h _
    exact calculate_crf_strict_anti_n hw (by omega) h

/-- Witness for C5 at concrete inputs: CRF(0, 40) = 1/40, CRF(0.08, 40) > 0,
CRF(0.08, 40) < CRF(0.09, 40) and CRF(0.08, 41) < CRF(0.08, 40). -/
theorem crf_properties_C5_witness :
    calculate_crf 0 40 = 1 / (40 : ℚ) ∧
    0 < calculate_crf (8/100) 40 ∧
    calculate_crf (8/100) 40 < calculate_crf (9/100) 40 ∧
    calculate_crf (8/100) 41 < calculate_crf (8/100) 40 := by
  refine ⟨crf_properties_C5.1 40, ?_, ?_, ?_⟩
  · exact crf_properties_C5.2.1 (8/100) 40 (by norm_num) (by norm_num) (by norm_num) (by norm_num)
  · exact crf_properties_C5.2.2.1 (8/100) (9/100) 40 (by norm_num) (by norm_num) (by norm_num)
      (by norm_num) (by norm_num)
  · exact crf_properties_C5.2.2.2 (8/100) 40 41 (by norm_num) (by norm_num) (by norm_num)
      (by norm_num) (by norm_num)

/-- C4 counterexample: for the balance-of-plant account '24-26' (Q-scaling flag
unset) and Q = 1, q_eng_multiplier returns the infinity sentinel, not 1.0: the
`q_eng <= 1` guard takes precedence over the flag check. -/
theorem q_eng_multiplier_C4_cex :
    q_eng_multiplier ("24-26") 1 = none ∧ q_eng_multiplier ("24-26") 1 ≠ some 1 := by
  constructor <;> decide

/-- C4 amended: for every account whose Q-scaling flag is unset (the table
entry is 0, or the account is absent so the lookup defaults to 0) and every
Q strictly greater than 1, qMultiplier(account, Q) = 1.0.  For Q ≤ 1 the
function instead returns +infinity regardless of the flag. -/
theorem q_eng_multiplier_C4 (account : String) (q : ℚ)
    (hflag : qScalingFlag account = 0) (hq : 1 < q) :
    q_eng_multiplier account q = some 1 := by
  unfold q_eng_multiplier
  rw [if_neg (not_le.mpr hq), if_pos hflag]

/-- Witness for the amended C4: the table account '24-26' and an absent
account '99', each at Q = 2, both yield multiplier 1.0. -/
theorem q_eng_multiplier_C4_witness :
    q_eng_multiplier ("24-26") 2 = some 1 ∧ q_eng_multiplier ("99") 2 = some 1 := by
  exact ⟨q_eng_multiplier_C4 ("24-26") 2 (by decide) (by norm_num),
    q_eng_multiplier_C4 ("99") 2 (by decide) (by norm_num)⟩

/-- C8: solve_for_capacity_factor returns feasible = false together with the
infinite sentinel required_value exactly when the target LCOE is at most the
total variable O&M of the non-disabled subsystems. -/
theorem solve_for_capacity_factor_C8 (target_lcoe : ℚ) (subs : List Subsystem)
    (fp : FinancialParams) (ft : FuelType) :
    ((solve_for_capacity_factor target_lcoe subs fp ft).feasible = false ∧
      (solve_for_capacity_factor target_lcoe subs fp ft).required_value = none) ↔
    target_lcoe ≤ total_variable_om subs := by
  have hcond : ((target_lcoe - total_variable_om subs) * 8760 / 1000 ≤ 0) ↔
      target_lcoe ≤ total_variable_om subs := by
    constructor
    · intro h
      nlinarith
    · intro h
      nlinarith
  unfold solve_for_capacity_factor
  by_cases h : (target_lcoe - total_variable_om subs) * 8760 / 1000 ≤ 0
  · rw [if_pos h]
    simpa using hcond.mp h
  · rw [if_neg h]
    simp only [Option.some_ne_none, and_false, false_iff]
    intro hc
    exact h (hcond.mpr hc)

theorem lcoe_core_capital (subs : List Subsystem) (fp : FinancialParams)
    (ft : FuelType) (ct : ConfinementType) :
    (calculate_lcoe_core subs fp ft ct).capital_contribution =
      calculate_crf fp.wacc fp.lifetime * total_capex_reg subs fp ft / energy_per_kw fp ft := rfl

theorem lcoe_core_fixed (subs : List Subsystem) (fp : FinancialParams)
    (ft : FuelType) (ct : ConfinementType) :
    (calculate_lcoe_core subs fp ft ct).fixed_om_contribution =
      total_fixed_om_kw subs fp / energy_per_kw fp ft := rfl

theorem lcoe_core_var (subs : List Subsystem) (fp : FinancialParams)
    (ft : FuelType) (ct : ConfinementType) :
    (calculate_lcoe_core subs fp ft ct).variable_om_contribution = total_variable_om subs := rfl

theorem lcoe_core_fuel (subs : List Subsystem) (fp : FinancialParams)
    (ft : FuelType) (ct : ConfinementType) :
    (calculate_lcoe_core subs fp ft ct).fuel_contribution = 0 := rfl

theorem lcoe_core_total (subs : List Subsystem) (fp : FinancialParams)
    (ft : FuelType) (ct : ConfinementType) :
    (calculate_lcoe_core subs fp ft ct).total_lcoe =
      (calculate_lcoe_core subs fp ft ct).capital_contribution +
      (calculate_lcoe_core subs fp ft ct).fixed_om_contribution +
      (calculate_lcoe_core subs fp ft ct).variable_om_contribution +
      (calculate_lcoe_core subs fp ft ct).fuel_contribution := rfl

theorem lcoe_core_subcap (subs : List Subsystem) (fp : FinancialParams)
    (ft : FuelType) (ct : ConfinementType) :
    (calculate_lcoe_core subs fp ft ct).subsystem_capital = subsystem_capital_map subs fp ft := rfl

theorem lcoe_core_subom (subs : List Subsystem) (fp : FinancialParams)
    (ft : FuelType) (ct : ConfinementType) :
    (calculate_lcoe_core subs fp ft ct).subsystem_om = subsystem_om_map subs fp ft := rfl

theorem lcoe_round_capital (subs : List Subsystem) (fp : FinancialParams)
    (ft : FuelType) (ct : ConfinementType) :
    (calculate_lcoe subs fp ft ct).capital_contribution =
      roundTo 2 (calculate_lcoe_core subs fp ft ct).capital_contribution := rfl

theorem lcoe_round_fixed (subs : List Subsystem) (fp : FinancialParams)
    (ft : FuelType) (ct : ConfinementType) :
    (calculate_lcoe subs fp ft ct).fixed_om_contribution =
      roundTo 2 (calculate_lcoe_core subs fp ft ct).fixed_om_contribution := rfl

theorem lcoe_round_var (subs : List Subsystem) (fp : FinancialParams)
    (ft : FuelType) (ct : ConfinementType) :
    (calculate_lcoe subs fp ft ct).variable_om_contribution =
      roundTo 2 (calculate_lcoe_core subs fp ft ct).variable_om_contribution := rfl

theorem lcoe_round_fuel (subs : List Subsystem) (fp : FinancialParams)
    (ft : FuelType) (ct : ConfinementType) :
    (calculate_lcoe subs fp ft ct).fuel_contribution =
      roundTo 2 (calculate_lcoe_core subs fp ft ct).fuel_contribution := rfl

theorem lcoe_round_total (subs : List Subsystem) (fp : FinancialParams)
    (ft : FuelType) (ct : ConfinementType) :
    (calculate_lcoe subs fp ft ct).total_lcoe =
      roundTo 2 (calculate_lcoe_core subs fp ft ct).total_lcoe := rfl

/-- Inserting a stream of pairwise-fresh keys into an association list is an
append; this is how the attribution dicts behave when account codes are unique. -/
theorem foldl_dictInsert_fresh (v : Subsystem → ℚ) :
    ∀ (l : List Subsystem) (d : List (String × ℚ)),
      (l.map Subsystem.account).Nodup →
      (∀ s ∈ l, ∀ p ∈ d, p.1 ≠ s.account) →
      l.foldl (fun acc s => dictInsert acc s.account (v s)) d =
        d ++ l.map (fun s => (s.account, v s)) := by
  intro l
  induction l with
  | nil =>
    intro d _ _
    simp
  | cons s rest ih =>
    intro d hnd hfresh
    have hnd' : (Subsystem.account s :: rest.map Subsystem.account).Nodup := by
      simpa using hnd
    obtain ⟨hhead, htail⟩ := List.nodup_cons.mp hnd'
    have hstep : dictInsert d s.account (v s) = d ++ [(s.account, v s)] := by
      unfold dictInsert
      rw [if_neg]
      simp only [List.any_eq_true, decide_eq_true_eq, not_exists, not_and]
      intro p hp
      exact hfresh s (List.mem_cons_self s rest) p hp
    rw [List.foldl_cons, hstep,
      ih (d ++ [(s.account, v s)]) htail ?_]
    · simp
    · intro t ht p hp
      rcases List.mem_append.mp hp with hpd | hps
      · exact hfresh t (List.mem_cons_of_mem s ht) p hpd
      · have hpeq : p = (s.account, v s) := by simpa using hps
        subst hpeq
        intro hcon
        apply hhead
        have hacc : s.account = t.account := hcon
        rw [hacc]
        exact List.mem_map_of_mem Subsystem.account ht

theorem subsystem_capital_map_eq (subs : List Subsystem) (fp : FinancialParams) (ft : FuelType)
    (hnd : ((activeSubs subs).map Subsystem.account).Nodup) :
    subsystem_capital_map subs fp ft =
      (activeSubs subs).map (fun s => (s.account, sub_capital_contrib fp ft s)) := by
  unfold subsystem_capital_map
  rw [foldl_dictInsert_fresh _ _ [] hnd (by intro s _ p hp; simp at hp)]
  simp

/-- C3 amended: when the non-disabled subsystems carry pairwise distinct account
codes, the values of the subsystem_capital attribution sum exactly (before the
presentation rounding) to capital_contribution divided by the fuel's regulatory
modifier — the attribution is computed before the markup and so under-counts the
capital component by exactly the markup factor.  With duplicate account codes the
dict overwrite breaks even this relation (see the counterexample). -/
theorem subsystem_capital_attribution_C3 (subs : List Subsystem) (fp : FinancialParams)
    (ft : FuelType) (ct : ConfinementType)
    (hnd : ((activeSubs subs).map Subsystem.account).Nodup) :
    valuesSum (calculate_lcoe_core subs fp ft ct).subsystem_capital =
      (calculate_lcoe_core subs fp ft ct).capital_contribution /
        (get_fuel_constraints ft).regulatory_modifier := by
  have hreg : (get_fuel_constraints ft).regulatory_modifier ≠ 0 := by
    cases ft <;> norm_num [get_fuel_constraints]
  rw [lcoe_core_subcap, lcoe_core_capital, subsystem_capital_map_eq subs fp ft hnd]
  unfold valuesSum
  rw [List.map_map]
  have hcomp : (Prod.snd ∘ fun s => (s.account, sub_capital_contrib fp ft s)) =
      sub_capital_contrib fp ft := rfl
  rw [hcomp]
  have hcontrib : sub_capital_contrib fp ft = fun s =>
      (calculate_crf fp.wacc fp.lifetime / energy_per_kw fp ft) * capitalPerKw fp s := by
    funext s
    unfold sub_capital_contrib
    ring
  rw [hcontrib, List.sum_map_mul_left]
  unfold total_capex_reg total_capex_kw
  by_cases he : energy_per_kw fp ft = 0
  · rw [he]
    simp
  · field_simp
    ring

/-- Shared concrete financial scenario used by witnesses and counterexamples:
wacc 8 %, 40-year lifetime, capacity factor 0.5, 1000 MW, Q_eng 10. -/
def fpEx : FinancialParams :=
  { wacc := 8/100, lifetime := 40, capacity_factor := 1/2, capacity_mw := 1000, q_eng := 10 }

/-- A balance-of-plant subsystem with $438M capital cost. -/
def subBop : Subsystem :=
  { account := "24-26", absolute_capital_cost := 438, absolute_fixed_om := 0,
    variable_om := 0, required := false, disabled := false }

/-- C3 counterexample: with two non-disabled subsystems sharing account '24-26',
the dict overwrite drops the first contribution, so the subsystem_capital values
no longer sum to capital_contribution / regulatory_modifier, far beyond rounding
slack (the gap is half the capital component, about 8.4 $/MWh here). -/
theorem subsystem_capital_attribution_C3_cex :
    ¬ (|valuesSum (calculate_lcoe [subBop, subBop] fpEx FuelType.PB11
          ConfinementType.MCF).subsystem_capital -
        (calculate_lcoe [subBop, subBop] fpEx FuelType.PB11
          ConfinementType.MCF).capital_contribution /
          (get_fuel_constraints FuelType.PB11).regulatory_modifier| ≤ 1/10) := by
  with_unfolding_all decide

/-- Witness for the amended C3 at a distinct-accounts input. -/
theorem subsystem_capital_attribution_C3_witness :
    valuesSum (calculate_lcoe_core [subBop] fpEx FuelType.DT
        ConfinementType.MCF).subsystem_capital =
      (calculate_lcoe_core [subBop] fpEx FuelType.DT
        ConfinementType.MCF).capital_contribution /
        (get_fuel_constraints FuelType.DT).regulatory_modifier :=
  subsystem_capital_attribution_C3 [subBop] fpEx FuelType.DT ConfinementType.MCF
    (by with_unfolding_all decide)

/-- C1 amended: before the presentation rounding the four LCOE components sum
to total_lcoe exactly; after each of the five numbers is rounded to 2 decimals
the component sum can differ from total_lcoe by up to the accumulated rounding
slack (bounded by 0.025 $/MWh), which is an absolute — not a 1 % relative —
bound, and exceeds 1 % of total_lcoe for totals below 2.5 $/MWh (see the
counterexample). -/
theorem lcoe_components_sum_C1 (subs : List Subsystem) (fp : FinancialParams)
    (ft : FuelType) (ct : ConfinementType) (_hfp : fp.Valid) :
    ((calculate_lcoe_core subs fp ft ct).capital_contribution +
      (calculate_lcoe_core subs fp ft ct).fixed_om_contribution +
      (calculate_lcoe_core subs fp ft ct).variable_om_contribution +
      (calculate_lcoe_core subs fp ft ct).fuel_contribution =
      (calculate_lcoe_core subs fp ft ct).total_lcoe) ∧
    |(calculate_lcoe subs fp ft ct).capital_contribution +
      (calculate_lcoe subs fp ft ct).fixed_om_contribution +
      (calculate_lcoe subs fp ft ct).variable_om_contribution +
      (calculate_lcoe subs fp ft ct).fuel_contribution -
      (calculate_lcoe subs fp ft ct).total_lcoe| ≤ 1/40 := by
  refine ⟨(lcoe_core_total subs fp ft ct).symm, ?_⟩
  rw [lcoe_round_capital, lcoe_round_fixed, lcoe_round_var, lcoe_round_fuel, lcoe_round_total]
  have hq : (1:ℚ) / (2 * 10 ^ 2) = 1/200 := by norm_num
  have e1 := roundTo_abs_le 2 (calculate_lcoe_core subs fp ft ct).capital_contribution
  have e2 := roundTo_abs_le 2 (calculate_lcoe_core subs fp ft ct).fixed_om_contribution
  have e3 := roundTo_abs_le 2 (calculate_lcoe_core subs fp ft ct).variable_om_contribution
  have e4 := roundTo_abs_le 2 (calculate_lcoe_core subs fp ft ct).fuel_contribution
  have e5 := roundTo_abs_le 2 (calculate_lcoe_core subs fp ft ct).total_lcoe
  rw [hq] at e1 e2 e3 e4 e5
  have hsum := lcoe_core_total subs fp ft ct
  rw [abs_le] at e1 e2 e3 e4 e5 ⊢
  constructor <;> [skip; skip] <;> linarith

/-- A subsystem whose contributions are small enough that the per-component
rounding dominates the total: zero capital, fixed O&M chosen so the fixed-O&M
contribution is exactly 0.0051 $/MWh, variable O&M 0.0051 $/MWh. -/
def subTiny : Subsystem :=
  { account := "24-26", absolute_capital_cost := 0, absolute_fixed_om := 11169/500000,
    variable_om := 51/10000, required := false, disabled := false }

/-- C1 counterexample: at this valid input the rounded components are
0 + 0.01 + 0.01 + 0 = 0.02 while the rounded total is 0.01, a 100 % relative
discrepancy — far outside the claimed 1 % relative tolerance. -/
theorem lcoe_components_sum_C1_cex :
    ¬ (|(calculate_lcoe [subTiny] fpEx FuelType.PB11 ConfinementType.MCF).capital_contribution +
        (calculate_lcoe [subTiny] fpEx FuelType.PB11 ConfinementType.MCF).fixed_om_contribution +
        (calculate_lcoe [subTiny] fpEx FuelType.PB11 ConfinementType.MCF).variable_om_contribution +
        (calculate_lcoe [subTiny] fpEx FuelType.PB11 ConfinementType.MCF).fuel_contribution -
        (calculate_lcoe [subTiny] fpEx FuelType.PB11 ConfinementType.MCF).total_lcoe| ≤
      (1/100) * (calculate_lcoe [subTiny] fpEx FuelType.PB11 ConfinementType.MCF).total_lcoe) := by
  with_unfolding_all decide

/-- Witness for the amended C1 at a concrete valid input. -/
theorem lcoe_components_sum_C1_witness :
    ((calculate_lcoe_core [subBop] fpEx FuelType.DT ConfinementType.MCF).capital_contribution +
      (calculate_lcoe_core [subBop] fpEx FuelType.DT ConfinementType.MCF).fixed_om_contribution +
      (calculate_lcoe_core [subBop] fpEx FuelType.DT ConfinementType.MCF).variable_om_contribution +
      (calculate_lcoe_core [subBop] fpEx FuelType.DT ConfinementType.MCF).fuel_contribution =
      (calculate_lcoe_core [subBop] fpEx FuelType.DT ConfinementType.MCF).total_lcoe) ∧
    |(calculate_lcoe [subBop] fpEx FuelType.DT ConfinementType.MCF).capital_contribution +
      (calculate_lcoe [subBop] fpEx FuelType.DT ConfinementType.MCF).fixed_om_contribution +
      (calculate_lcoe [subBop] fpEx FuelType.DT ConfinementType.MCF).variable_om_contribution +
      (calculate_lcoe [subBop] fpEx FuelType.DT ConfinementType.MCF).fuel_contribution -
      (calculate_lcoe [subBop] fpEx FuelType.DT ConfinementType.MCF).total_lcoe| ≤ 1/40 :=
  lcoe_components_sum_C1 [subBop] fpEx FuelType.DT ConfinementType.MCF
    (by with_unfolding_all decide)

/-- C6: solve_for_q_eng follows the claimed edge-case precedence: headroom not
above the non-Q cost rate is infeasible regardless of c_q; otherwise c_q ≤ 0 is
feasible at the nominal minimum 1.5; otherwise a ratio r ≤ 1 is infeasible;
otherwise the solver returns Q = r/(r-1) (rounded to 1 decimal for
presentation) and is feasible exactly when 1.5 ≤ Q ≤ 50. -/
theorem solve_for_q_eng_C6 (target_lcoe : ℚ) (subs : List Subsystem)
    (fp : FinancialParams) (ft : FuelType) :
    (qeng_a target_lcoe subs fp ft ≤ qeng_cnq subs fp ft →
      solve_for_q_eng target_lcoe subs fp ft =
        { parameter := "q_eng", required_value := none, feasible := false }) ∧
    (qeng_cnq subs fp ft < qeng_a target_lcoe subs fp ft →
      qeng_cq subs fp ft ≤ 0 →
      solve_for_q_eng target_lcoe subs fp ft =
        { parameter := "q_eng", required_value := some (3/2), feasible := true }) ∧
    (qeng_cnq subs fp ft < qeng_a target_lcoe subs fp ft →
      0 < qeng_cq subs fp ft →
      qeng_r target_lcoe subs fp ft ≤ 1 →
      solve_for_q_eng target_lcoe subs fp ft =
        { parameter := "q_eng", required_value := none, feasible := false }) ∧
    (qeng_cnq subs fp ft < qeng_a target_lcoe subs fp ft →
      0 < qeng_cq subs fp ft →
      1 < qeng_r target_lcoe subs fp ft →
      (solve_for_q_eng target_lcoe subs fp ft).required_value =
        some (roundTo 1 (qeng_r target_lcoe subs fp ft /
          (qeng_r target_lcoe subs fp ft - 1))) ∧
      ((solve_for_q_eng target_lcoe subs fp ft).feasible = true ↔
        (3/2 ≤ qeng_r target_lcoe subs fp ft / (qeng_r target_lcoe subs fp ft - 1) ∧
          qeng_r target_lcoe subs fp ft / (qeng_r target_lcoe subs fp ft - 1) ≤ 50))) := by
  refine ⟨?_, ?_, ?_, ?_⟩
  · intro h1
    unfold solve_for_q_eng
    rw [if_pos h1]
  · intro h1 h2
    unfold solve_for_q_eng
    rw [if_neg (not_le.mpr h1), if_pos h2]
  · intro h1 h2 h3
    unfold solve_for_q_eng
    rw [if_neg (not_le.mpr h1), if_neg (not_le.mpr h2), if_pos h3]
  · intro h1 h2 h3
    unfold solve_for_q_eng
    rw [if_neg (not_le.mpr h1), if_neg (not_le.mpr h2), if_neg (not_le.mpr h3)]
    exact ⟨rfl, by simp⟩

/-- A Q-scaling subsystem (turbine plant, account '23') with $438M capital cost. -/
def subTurbine : Subsystem :=
  { account := "23", absolute_capital_cost := 438, absolute_fixed_om := 0,
    variable_om := 0, required := false, disabled := false }

/-- Witness for C6 exercising the final (generic) branch at a concrete input. -/
theorem solve_for_q_eng_C6_witness :
    (solve_for_q_eng 12 [subTurbine] fpEx FuelType.PB11).required_value =
      some (roundTo 1 (qeng_r 12 [subTurbine] fpEx FuelType.PB11 /
        (qeng_r 12 [subTurbine] fpEx FuelType.PB11 - 1))) ∧
    ((solve_for_q_eng 12 [subTurbine] fpEx FuelType.PB11).feasible = true ↔
      (3/2 ≤ qeng_r 12 [subTurbine] fpEx FuelType.PB11 /
          (qeng_r 12 [subTurbine] fpEx FuelType.PB11 - 1) ∧
        qeng_r 12 [subTurbine] fpEx FuelType.PB11 /
          (qeng_r 12 [subTurbine] fpEx FuelType.PB11 - 1) ≤ 50)) :=
  (solve_for_q_eng_C6 12 [subTurbine] fpEx FuelType.PB11).2.2.2
    (by with_unfolding_all decide) (by with_unfolding_all decide)
    (by with_unfolding_all decide)

theorem qMultVal_nonneg (account : String) {q : ℚ} (hq : 1 < q) :
    0 ≤ qMultVal account q := by
  unfold qMultVal q_eng_multiplier
  rw [if_neg (not_le.mpr hq)]
  by_cases hflag : qScalingFlag account = 0
  · rw [if_pos hflag]
    norm_num
  · rw [if_neg hflag]
    have h1 : (0:ℚ) < q - 1 := by linarith
    have h2 : (0:ℚ) < q := by linarith
    simp only [Option.getD_some]
    positivity

theorem capital_cost_per_kw_nonneg {s : Subsystem} (hs : s.Valid) (c : ℚ) :
    0 ≤ s.capital_cost_per_kw c := by
  unfold Subsystem.capital_cost_per_kw
  split_ifs with h
  · exact le_refl 0
  · have hc : 0 < c := lt_of_not_le h
    have := hs.1
    positivity

theorem fixed_om_per_kw_nonneg {s : Subsystem} (hs : s.Valid) (c : ℚ) :
    0 ≤ s.fixed_om_per_kw c := by
  unfold Subsystem.fixed_om_per_kw
  split_ifs with h
  · exact le_refl 0
  · have hc : 0 < c := lt_of_not_le h
    have := hs.2.1
    positivity

theorem activeSubs_subset {subs : List Subsystem} {s : Subsystem}
    (h : s ∈ activeSubs subs) : s ∈ subs :=
  List.mem_of_mem_filter h

theorem cf_modifier_pos (ft : FuelType) : 0 < (get_fuel_constraints ft).cf_modifier := by
  cases ft <;> norm_num [get_fuel_constraints]

theorem regulatory_modifier_pos (ft : FuelType) :
    0 < (get_fuel_constraints ft).regulatory_modifier := by
  cases ft <;> norm_num [get_fuel_constraints]

theorem energy_per_kw_pos {fp : FinancialParams} (hfp : fp.Valid) (ft : FuelType) :
    0 < energy_per_kw fp ft := by
  have hcf : 0 < fp.capacity_factor := lt_of_lt_of_le (by norm_num) hfp.2.2.2.2.1
  have hmod := cf_modifier_pos ft
  unfold energy_per_kw effectiveCf
  positivity

theorem crf_nonneg_of_valid {fp : FinancialParams} (hfp : fp.Valid) :
    0 ≤ calculate_crf fp.wacc fp.lifetime := by
  have hw : 0 < fp.wacc := lt_of_lt_of_le (by norm_num) hfp.1
  have hn : fp.lifetime ≠ 0 := by
    have := hfp.2.2.1
    omega
  exact le_of_lt (calculate_crf_pos hw hn)

theorem total_capex_kw_nonneg {subs : List Subsystem} {fp : FinancialParams}
    (hsubs : ∀ s ∈ subs, s.Valid) (hq : 1 < fp.q_eng) :
    0 ≤ total_capex_kw subs fp := by
  unfold total_capex_kw
  apply List.sum_nonneg
  intro x hx
  obtain ⟨s, hs, rfl⟩ := List.mem_map.mp hx
  have hsv := hsubs s (activeSubs_subset hs)
  unfold capitalPerKw
  exact mul_nonneg (capital_cost_per_kw_nonneg hsv _) (qMultVal_nonneg _ hq)

theorem total_fixed_om_kw_nonneg {subs : List Subsystem} {fp : FinancialParams}
    (hsubs : ∀ s ∈ subs, s.Valid) (hq : 1 < fp.q_eng) :
    0 ≤ total_fixed_om_kw subs fp := by
  unfold total_fixed_om_kw
  apply List.sum_nonneg
  intro x hx
  obtain ⟨s, hs, rfl⟩ := List.mem_map.mp hx
  have hsv := hsubs s (activeSubs_subset hs)
  unfold fixedOmPerKw
  exact mul_nonneg (fixed_om_per_kw_nonneg hsv _) (qMultVal_nonneg _ hq)

theorem total_variable_om_nonneg {subs : List Subsystem}
    (hsubs : ∀ s ∈ subs, s.Valid) : 0 ≤ total_variable_om subs := by
  unfold total_variable_om
  apply List.sum_nonneg
  intro x hx
  obtain ⟨s, hs, rfl⟩ := List.mem_map.mp hx
  exact (hsubs s (activeSubs_subset hs)).2.2

/-- C7: the per-kW helpers guard the division by plant capacity (zero capacity
yields 0 rather than an error), and for every pydantic-valid input the energy
denominator is strictly positive (so no division in calculate_lcoe ever sees a
zero denominator) and the returned total_lcoe is non-negative — and, being a
rational number in this model, finite. -/
theorem lcoe_safety_C7 :
    (∀ s : Subsystem, s.capital_cost_per_kw 0 = 0 ∧ s.fixed_om_per_kw 0 = 0) ∧
    (∀ (subs : List Subsystem) (fp : FinancialParams) (ft : FuelType)
      (ct : ConfinementType), fp.Valid → (∀ s ∈ subs, s.Valid) →
      0 < energy_per_kw fp ft ∧ 0 ≤ (calculate_lcoe subs fp ft ct).total_lcoe) := by
  constructor
  · intro s
    constructor
    · unfold Subsystem.capital_cost_per_kw
      rw [if_pos le_rfl]
    · unfold Subsystem.fixed_om_per_kw
      rw [if_pos le_rfl]
  · intro subs fp ft ct hfp hsubs
    have he := energy_per_kw_pos hfp ft
    refine ⟨he, ?_⟩
    have hq : 1 < fp.q_eng := hfp.2.2.2.2.2.2.2.2.1
    have hcrf := crf_nonneg_of_valid hfp
    have hcap := total_capex_kw_nonneg hsubs hq
    have hfix := total_fixed_om_kw_nonneg hsubs hq
    have hvar := total_variable_om_nonneg hsubs
    have hreg := (regulatory_modifier_pos ft).le
    rw [lcoe_round_total]
    apply roundTo_nonneg
    rw [lcoe_core_total, lcoe_core_capital, lcoe_core_fixed, lcoe_core_var, lcoe_core_fuel]
    unfold total_capex_reg
    have h1 : 0 ≤ calculate_crf fp.wacc fp.lifetime *
        (total_capex_kw subs fp * (get_fuel_constraints ft).regulatory_modifier) /
        energy_per_kw fp ft := by positivity
    have h2 : 0 ≤ total_fixed_om_kw subs fp / energy_per_kw fp ft := by positivity
    linarith

/-- Witness for C7: the division guard at zero capacity and a non-negative
total LCOE at a concrete valid input. -/
theorem lcoe_safety_C7_witness :
    (subTurbine.capital_cost_per_kw 0 = 0 ∧ subTurbine.fixed_om_per_kw 0 = 0) ∧
    (0 < energy_per_kw fpEx FuelType.DT ∧
      0 ≤ (calculate_lcoe [subTurbine] fpEx FuelType.DT ConfinementType.MCF).total_lcoe) :=
  ⟨lcoe_safety_C7.1 subTurbine,
    lcoe_safety_C7.2 [subTurbine] fpEx FuelType.DT ConfinementType.MCF
      (by with_unfolding_all decide) (by with_unfolding_all decide)⟩

theorem wacc_bisect_tol_exit (f : ℚ → ℚ) (target : ℚ) :
    ∀ (n : ℕ) (low high m : ℚ), wacc_bisect f target n low high = (m, true) →
      |f m - target| < 1/100 := by
  intro n
  induction n with
  | zero =>
    intro low high m h
    simp [wacc_bisect] at h
  | succ k ih =>
    intro low high m h
    unfold wacc_bisect at h
    split at h
    next hk =>
      injection h with hm hb
      subst hm
      exact hk
    next hk =>
      split at h
      next hk0 =>
        injection h with hm hb
        exact Bool.noConfusion hb
      next hk0 =>
        split at h
        next h3 => exact ih _ _ _ h
        next h3 => exact ih _ _ _ h

/-- C2 amended: the universally-quantified 5 % round-trip property fails (see
the counterexample: both early returns and even tolerance exits give no
relative-error guarantee).  What the code does guarantee: whenever neither
early return fires and the bisection loop exits through its tolerance test,
the solver returns that midpoint (rounded to 3 decimals for presentation) and
the forward LCOE at the unrounded midpoint reproduces the target to within
0.01 $/MWh absolute error. -/
theorem solve_for_wacc_C2 (target_lcoe : ℚ) (subs : List Subsystem)
    (fp : FinancialParams) (ft : FuelType) (m : ℚ)
    (h1 : ¬ lcoe_at_wacc subs fp ft (1/100) > target_lcoe)
    (h2 : ¬ lcoe_at_wacc subs fp ft (1/4) < target_lcoe)
    (hb : wacc_bisect (lcoe_at_wacc subs fp ft) target_lcoe 50 (1/100) (1/4) = (m, true)) :
    (solve_for_wacc target_lcoe subs fp ft).required_value = some (roundTo 3 m) ∧
    |lcoe_at_wacc subs fp ft m - target_lcoe| < 1/100 := by
  constructor
  · unfold solve_for_wacc
    rw [if_neg h1, if_neg h2, hb]
  · exact wacc_bisect_tol_exit _ _ _ _ _ _ hb

set_option maxRecDepth 4000 in
/-- C2 counterexample: with no subsystems the forward LCOE is identically 0,
so for target 100 the solver takes the upper-bound early return (0.25,
feasible), yet recomputing the forward LCOE at WACC = 0.25 yields 0, a 100 %
relative error — the claimed 5 % round-trip bound does not cover the
early-return cases. -/
theorem solve_for_wacc_C2_cex :
    solve_for_wacc 100 ([] : List Subsystem) fpEx FuelType.DT =
      { parameter := "wacc", required_value := some (1/4), feasible := true } ∧
    ¬ (|(calculate_lcoe ([] : List Subsystem)
          { fpEx with wacc := 1/4 } FuelType.DT ConfinementType.MCF).total_lcoe - 100| ≤
        (5/100) * 100) := by
  constructor
  · with_unfolding_all decide
  · with_unfolding_all decide

set_option maxRecDepth 4000 in
/-- Witness for the amended C2: with no subsystems and target 0 the loop exits
through the tolerance test at the first midpoint 0.13. -/
theorem solve_for_wacc_C2_witness :
    (solve_for_wacc 0 ([] : List Subsystem) fpEx FuelType.DT).required_value =
      some (roundTo 3 (13/100)) ∧
    |lcoe_at_wacc ([] : List Subsystem) fpEx FuelType.DT (13/100) - 0| < 1/100 :=
  solve_for_wacc_C2 0 ([] : List Subsystem) fpEx FuelType.DT (13/100)
    (by with_unfolding_all decide) (by with_unfolding_all decide)
    (by with_unfolding_all decide)

theorem stripReq_account (s : Subsystem) : (stripReq s).account = s.account := rfl

theorem activeSubs_map_stripReq (l : List Subsystem) :
    activeSubs (l.map stripReq) = (activeSubs l).map stripReq := by
  induction l with
  | nil => rfl
  | cons s rest ih =>
    unfold activeSubs at *
    simp only [List.map_cons, List.filter_cons]
    cases hd : s.disabled
    · simpa [stripReq, hd] using ih
    · simpa [stripReq, hd] using ih

/-- Aggregates over the active subsystems do not change when only the
`required` flags of the input differ. -/
theorem strip_sum_eq (g : Subsystem → ℚ) (hg : ∀ s, g (stripReq s) = g s)
    {l₁ l₂ : List Subsystem} (h : l₁.map stripReq = l₂.map stripReq) :
    ((activeSubs l₁).map g).sum = ((activeSubs l₂).map g).sum := by
  have hgs : g ∘ stripReq = g := funext hg
  have key : ∀ l : List Subsystem,
      ((activeSubs (l.map stripReq)).map g).sum = ((activeSubs l).map g).sum := by
    intro l
    rw [activeSubs_map_stripReq, List.map_map, hgs]
  rw [← key l₁, ← key l₂, h]

/-- The attribution dicts do not change when only the `required` flags differ. -/
theorem strip_fold_eq (v : Subsystem → ℚ) (hv : ∀ s, v (stripReq s) = v s)
    {l₁ l₂ : List Subsystem} (h : l₁.map stripReq = l₂.map stripReq) :
    (activeSubs l₁).foldl (fun d s => dictInsert d s.account (v s)) [] =
      (activeSubs l₂).foldl (fun d s => dictInsert d s.account (v s)) [] := by
  have hfun : (fun (d : List (String × ℚ)) (s : Subsystem) =>
      dictInsert d (stripReq s).account (v (stripReq s))) =
      (fun d s => dictInsert d s.account (v s)) := by
    funext d s
    rw [hv, stripReq_account]
  have key : ∀ l : List Subsystem,
      (activeSubs (l.map stripReq)).foldl (fun d s => dictInsert d s.account (v s)) [] =
        (activeSubs l).foldl (fun d s => dictInsert d s.account (v s)) [] := by
    intro l
    rw [activeSubs_map_stripReq, List.foldl_map]
    rw [show (fun (x : List (String × ℚ)) (y : Subsystem) =>
        dictInsert x (stripReq y).account (v (stripReq y))) =
      (fun d s => dictInsert d s.account (v s)) from hfun]
  rw [← key l₁, ← key l₂, h]

/-- C9: the `required` flag of a subsystem never influences any core result:
inputs that agree after erasing `required` produce identical outputs from
calculate_lcoe and all six inverse solvers; only `disabled` (with the costs)
matters. -/
theorem required_flag_irrelevant_C9 (l₁ l₂ : List Subsystem) (target : ℚ)
    (fp : FinancialParams) (ft : FuelType) (ct : ConfinementType)
    (h : l₁.map stripReq = l₂.map stripReq) :
    calculate_lcoe l₁ fp ft ct = calculate_lcoe l₂ fp ft ct ∧
    solve_for_capex target l₁ fp ft = solve_for_capex target l₂ fp ft ∧
    solve_for_capacity_factor target l₁ fp ft = solve_for_capacity_factor target l₂ fp ft ∧
    solve_for_wacc target l₁ fp ft = solve_for_wacc target l₂ fp ft ∧
    solve_for_fixed_om target l₁ fp ft = solve_for_fixed_om target l₂ fp ft ∧
    solve_for_lifetime target l₁ fp ft = solve_for_lifetime target l₂ fp ft ∧
    solve_for_q_eng target l₁ fp ft = solve_for_q_eng target l₂ fp ft := by
  have hvar : total_variable_om l₁ = total_variable_om l₂ :=
    strip_sum_eq Subsystem.variable_om (fun _ => rfl) h
  have hcap : total_capex_kw l₁ fp = total_capex_kw l₂ fp :=
    strip_sum_eq (capitalPerKw fp) (fun _ => rfl) h
  have hfix : total_fixed_om_kw l₁ fp = total_fixed_om_kw l₂ fp :=
    strip_sum_eq (fixedOmPerKw fp) (fun _ => rfl) h
  have hcapreg : total_capex_reg l₁ fp ft = total_capex_reg l₂ fp ft := by
    unfold total_capex_reg
    rw [hcap]
  have hcabs : current_capex_abs l₁ fp = current_capex_abs l₂ fp :=
    strip_sum_eq (fun s => s.absolute_capital_cost * qMultVal s.account fp.q_eng)
      (fun _ => rfl) h
  have hfabs : current_fixed_om_abs l₁ fp = current_fixed_om_abs l₂ fp :=
    strip_sum_eq (fun s => s.absolute_fixed_om * qMultVal s.account fp.q_eng)
      (fun _ => rfl) h
  have hcq : qeng_capex_q l₁ fp = qeng_capex_q l₂ fp :=
    strip_sum_eq
      (fun s => if 0 < qScalingFlag s.account then s.capital_cost_per_kw fp.capacity_mw else 0)
      (fun _ => rfl) h
  have hcnq : qeng_capex_nq l₁ fp = qeng_capex_nq l₂ fp :=
    strip_sum_eq
      (fun s => if 0 < qScalingFlag s.account then 0 else s.capital_cost_per_kw fp.capacity_mw)
      (fun _ => rfl) h
  have homq : qeng_om_q l₁ fp = qeng_om_q l₂ fp :=
    strip_sum_eq
      (fun s => if 0 < qScalingFlag s.account then s.fixed_om_per_kw fp.capacity_mw else 0)
      (fun _ => rfl) h
  have homnq : qeng_om_nq l₁ fp = qeng_om_nq l₂ fp :=
    strip_sum_eq
      (fun s => if 0 < qScalingFlag s.account then 0 else s.fixed_om_per_kw fp.capacity_mw)
      (fun _ => rfl) h
  have hcapmap : subsystem_capital_map l₁ fp ft = subsystem_capital_map l₂ fp ft :=
    strip_fold_eq (sub_capital_contrib fp ft) (fun _ => rfl) h
  have hommap : subsystem_om_map l₁ fp ft = subsystem_om_map l₂ fp ft :=
    strip_fold_eq (sub_om_contrib fp ft) (fun _ => rfl) h
  have hfw : lcoe_at_wacc l₁ fp ft = lcoe_at_wacc l₂ fp ft := by
    funext w
    unfold lcoe_at_wacc
    rw [hcapreg, hfix, hvar]
  have hfl : lcoe_at_lifetime l₁ fp ft = lcoe_at_lifetime l₂ fp ft := by
    funext n
    unfold lcoe_at_lifetime
    rw [hcapreg, hfix, hvar]
  have ha : qeng_a target l₁ fp ft = qeng_a target l₂ fp ft := by
    unfold qeng_a
    rw [hvar]
  have hc1 : qeng_cq l₁ fp ft = qeng_cq l₂ fp ft := by
    unfold qeng_cq
    rw [hcq, homq]
  have hc2 : qeng_cnq l₁ fp ft = qeng_cnq l₂ fp ft := by
    unfold qeng_cnq
    rw [hcnq, homnq]
  have hr : qeng_r target l₁ fp ft = qeng_r target l₂ fp ft := by
    unfold qeng_r
    rw [ha, hc1, hc2]
  refine ⟨?_, ?_, ?_, ?_, ?_, ?_, ?_⟩
  · simp only [calculate_lcoe, calculate_lcoe_core, hvar, hcapreg, hfix, hcapmap, hommap]
  · simp only [solve_for_capex, hvar, hfix, hcabs]
  · simp only [solve_for_capacity_factor, hvar, hcapreg, hfix]
  · simp only [solve_for_wacc, hfw]
  · simp only [solve_for_fixed_om, hvar, hcapreg, hfabs]
  · simp only [solve_for_lifetime, hfl]
  · simp only [solve_for_q_eng, ha, hc1, hc2, hr]

/-- A subsystem flagged required by the constraint annotation pass. -/
def subReqTrue : Subsystem :=
  { account := "23", absolute_capital_cost := 100, absolute_fixed_om := 5,
    variable_om := 1/2, required := true, disabled := false }

/-- The same subsystem with the required flag cleared. -/
def subReqFalse : Subsystem :=
  { account := "23", absolute_capital_cost := 100, absolute_fixed_om := 5,
    variable_om := 1/2, required := false, disabled := false }

/-- Witness for C9: flipping the required flag of a concrete subsystem changes
no output. -/
theorem required_flag_irrelevant_C9_witness :
    calculate_lcoe [subReqTrue] fpEx FuelType.DT ConfinementType.MCF =
      calculate_lcoe [subReqFalse] fpEx FuelType.DT ConfinementType.MCF ∧
    solve_for_capex 50 [subReqTrue] fpEx FuelType.DT =
      solve_for_capex 50 [subReqFalse] fpEx FuelType.DT ∧
    solve_for_capacity_factor 50 [subReqTrue] fpEx FuelType.DT =
      solve_for_capacity_factor 50 [subReqFalse] fpEx FuelType.DT ∧
    solve_for_wacc 50 [subReqTrue] fpEx FuelType.DT =
      solve_for_wacc 50 [subReqFalse] fpEx FuelType.DT ∧
    solve_for_fixed_om 50 [subReqTrue] fpEx FuelType.DT =
      solve_for_fixed_om 50 [subReqFalse] fpEx FuelType.DT ∧
    solve_for_lifetime 50 [subReqTrue] fpEx FuelType.DT =
      solve_for_lifetime 50 [subReqFalse] fpEx FuelType.DT ∧
    solve_for_q_eng 50 [subReqTrue] fpEx FuelType.DT =
      solve_for_q_eng 50 [subReqFalse] fpEx FuelType.DT :=
  required_flag_irrelevant_C9 [subReqTrue] [subReqFalse] 50 fpEx FuelType.DT
    ConfinementType.MCF rfl

theorem dup_subsystem_capital (s₁ s₂ : Subsystem) (fp : FinancialParams)
    (ft : FuelType) (ct : ConfinementType)
    (h₁ : s₁.disabled = false) (h₂ : s₂.disabled = false)
    (hacc : s₁.account = s₂.account) :
    (calculate_lcoe_core [s₁, s₂] fp ft ct).subsystem_capital =
      [(s₂.account, sub_capital_contrib fp ft s₂)] := by
  have hact : activeSubs [s₁, s₂] = [s₁, s₂] := by
    unfold activeSubs
    simp [h₁, h₂]
  rw [lcoe_core_subcap]
  unfold subsystem_capital_map
  rw [hact]
  simp [dictInsert, hacc]

theorem dup_subsystem_om (s₁ s₂ : Subsystem) (fp : FinancialParams)
    (ft : FuelType) (ct : ConfinementType)
    (h₁ : s₁.disabled = false) (h₂ : s₂.disabled = false)
    (hacc : s₁.account = s₂.account) :
    (calculate_lcoe_core [s₁, s₂] fp ft ct).subsystem_om =
      [(s₂.account, sub_om_contrib fp ft s₂)] := by
  have hact : activeSubs [s₁, s₂] = [s₁, s₂] := by
    unfold activeSubs
    simp [h₁, h₂]
  rw [lcoe_core_subom]
  unfold subsystem_om_map
  rw [hact]
  simp [dictInsert, hacc]

theorem dup_capital_contribution (s₁ s₂ : Subsystem) (fp : FinancialParams)
    (ft : FuelType) (ct : ConfinementType)
    (h₁ : s₁.disabled = false) (h₂ : s₂.disabled = false) :
    (calculate_lcoe_core [s₁, s₂] fp ft ct).capital_contribution =
      calculate_crf fp.wacc fp.lifetime *
        ((capitalPerKw fp s₁ + capitalPerKw fp s₂) *
          (get_fuel_constraints ft).regulatory_modifier) / energy_per_kw fp ft := by
  have hact : activeSubs [s₁, s₂] = [s₁, s₂] := by
    unfold activeSubs
    simp [h₁, h₂]
  rw [lcoe_core_capital]
  unfold total_capex_reg total_capex_kw
  rw [hact]
  simp

theorem dup_capital_div_reg (s₁ s₂ : Subsystem) (fp : FinancialParams)
    (ft : FuelType) (ct : ConfinementType)
    (h₁ : s₁.disabled = false) (h₂ : s₂.disabled = false) :
    (calculate_lcoe_core [s₁, s₂] fp ft ct).capital_contribution /
      (get_fuel_constraints ft).regulatory_modifier =
      sub_capital_contrib fp ft s₁ + sub_capital_contrib fp ft s₂ := by
  rw [dup_capital_contribution s₁ s₂ fp ft ct h₁ h₂]
  by_cases he : energy_per_kw fp ft = 0
  · unfold sub_capital_contrib
    rw [he]
    simp
  · have hreg : (get_fuel_constraints ft).regulatory_modifier ≠ 0 :=
      ne_of_gt (regulatory_modifier_pos ft)
    unfold sub_capital_contrib
    field_simp
    ring

/-- C10 amended (with the nondegeneracy the counterexample forces): when the
input contains two non-disabled subsystems with the same account code,
calculate_lcoe adds both into the aggregate totals (capital and variable
components include both subsystems) while the subsystem_capital and
subsystem_om dicts hold a single entry for that code carrying only the later
subsystem's contribution; consequently, whenever the earlier (shadowed)
capital contribution is nonzero, the dict values no longer sum to the capital
component total divided by the regulatory markup. -/
theorem duplicate_accounts_C10 (s₁ s₂ : Subsystem) (fp : FinancialParams)
    (ft : FuelType) (ct : ConfinementType)
    (h₁ : s₁.disabled = false) (h₂ : s₂.disabled = false)
    (hacc : s₁.account = s₂.account) :
    (calculate_lcoe_core [s₁, s₂] fp ft ct).subsystem_capital =
      [(s₂.account, sub_capital_contrib fp ft s₂)] ∧
    (calculate_lcoe_core [s₁, s₂] fp ft ct).subsystem_om =
      [(s₂.account, sub_om_contrib fp ft s₂)] ∧
    (calculate_lcoe_core [s₁, s₂] fp ft ct).capital_contribution =
      calculate_crf fp.wacc fp.lifetime *
        ((capitalPerKw fp s₁ + capitalPerKw fp s₂) *
          (get_fuel_constraints ft).regulatory_modifier) / energy_per_kw fp ft ∧
    (calculate_lcoe_core [s₁, s₂] fp ft ct).variable_om_contribution =
      s₁.variable_om + s₂.variable_om ∧
    (sub_capital_contrib fp ft s₁ ≠ 0 →
      valuesSum (calculate_lcoe_core [s₁, s₂] fp ft ct).subsystem_capital ≠
        (calculate_lcoe_core [s₁, s₂] fp ft ct).capital_contribution /
          (get_fuel_constraints ft).regulatory_modifier) := by
  have hact : activeSubs [s₁, s₂] = [s₁, s₂] := by
    unfold activeSubs
    simp [h₁, h₂]
  refine ⟨dup_subsystem_capital s₁ s₂ fp ft ct h₁ h₂ hacc,
    dup_subsystem_om s₁ s₂ fp ft ct h₁ h₂ hacc,
    dup_capital_contribution s₁ s₂ fp ft ct h₁ h₂, ?_, ?_⟩
  · rw [lcoe_core_var]
    unfold total_variable_om
    rw [hact]
    simp
  · intro hne
    rw [dup_subsystem_capital s₁ s₂ fp ft ct h₁ h₂ hacc,
      dup_capital_div_reg s₁ s₂ fp ft ct h₁ h₂]
    unfold valuesSum
    simp only [List.map_cons, List.map_nil, List.sum_cons, List.sum_nil, add_zero]
    intro hcon
    apply hne
    linarith

/-- A second balance-of-plant subsystem sharing account '24-26'. -/
def subBopB : Subsystem :=
  { account := "24-26", absolute_capital_cost := 219, absolute_fixed_om := 0,
    variable_om := 3, required := false, disabled := false }

/-- Witness for C10 at a concrete duplicate-account input: the dict keeps only
the later entry and its values no longer sum to the capital total over the
markup. -/
theorem duplicate_accounts_C10_witness :
    (calculate_lcoe_core [subBop, subBopB] fpEx FuelType.PB11
        ConfinementType.MCF).subsystem_capital =
      [(subBopB.account, sub_capital_contrib fpEx FuelType.PB11 subBopB)] ∧
    valuesSum (calculate_lcoe_core [subBop, subBopB] fpEx FuelType.PB11
        ConfinementType.MCF).subsystem_capital ≠
      (calculate_lcoe_core [subBop, subBopB] fpEx FuelType.PB11
        ConfinementType.MCF).capital_contribution /
        (get_fuel_constraints FuelType.PB11).regulatory_modifier :=
  ⟨(duplicate_accounts_C10 subBop subBopB fpEx FuelType.PB11 ConfinementType.MCF
      rfl rfl rfl).1,
    (duplicate_accounts_C10 subBop subBopB fpEx FuelType.PB11 ConfinementType.MCF
      rfl rfl rfl).2.2.2.2 (by with_unfolding_all decide)⟩

/-- A zero-cost subsystem on account '24-26'. -/
def subZero : Subsystem :=
  { account := "24-26", absolute_capital_cost := 0, absolute_fixed_om := 0,
    variable_om := 0, required := false, disabled := false }

/-- C10 counterexample to the unconditional final clause: when the earlier
duplicate contributes nothing (zero capital cost), the single surviving dict
entry still sums exactly to the capital component over the markup, so "the
mapping values no longer sum to the component totals" does not hold for every
duplicate input. -/
theorem duplicate_accounts_C10_cex :
    valuesSum (calculate_lcoe_core [subZero, subBop] fpEx FuelType.PB11
        ConfinementType.MCF).subsystem_capital =
      (calculate_lcoe_core [subZero, subBop] fpEx FuelType.PB11
        ConfinementType.MCF).capital_contribution /
        (get_fuel_constraints FuelType.PB11).regulatory_modifier := by
  rw [dup_subsystem_capital subZero subBop fpEx FuelType.PB11 ConfinementType.MCF
      rfl rfl rfl,
    dup_capital_div_reg subZero subBop fpEx FuelType.PB11 ConfinementType.MCF rfl rfl]
  unfold valuesSum
  simp only [List.map_cons, List.map_nil, List.sum_cons, List.sum_nil, add_zero]
  have hzero : sub_capital_contrib fpEx FuelType.PB11 subZero = 0 := by
    unfold sub_capital_contrib capitalPerKw Subsystem.capital_cost_per_kw subZero
    norm_num
  rw [hzero, zero_add]
